import Mathlib

/-!
Verification of the native backend of the Ursa-Markup desktop application
(src/src-tauri/src/lib.rs): the clipboard image-transfer subsystem
(base64 decode, PNG decode, primary clipboard write via arboard, fallback
raw write via the external wl-copy helper), the result event, the
pending-file store, and the launch-argument path handling.

The Rust code is shallowly embedded.  External-library effects (the image
crate's PNG decoder, arboard's clipboard, process spawning and waiting) are
modelled as oracles in an `Env` record; the control flow, argument values,
error-message construction and event emission are translated directly from
the source.  Byte values are `Nat`; error payload texts produced by
external crates are abstract strings supplied by the oracles, while the
`format!` prefixes written in lib.rs are modelled verbatim.
-/

set_option autoImplicit false

/-! ### Base64 decoding (model of base64::engine::general_purpose::STANDARD.decode) -/

/-- Value of a character in the standard base64 alphabet, `none` for any
character outside it (including the padding character itself). -/
def b64Val (c : Char) : Option Nat :=
  if 'A' ≤ c ∧ c ≤ 'Z' then some (c.toNat - 65)
  else if 'a' ≤ c ∧ c ≤ 'z' then some (c.toNat - 97 + 26)
  else if '0' ≤ c ∧ c ≤ '9' then some (c.toNat - 48 + 52)
  else if c = '+' then some 62
  else if c = '/' then some 63
  else none

/-- Decode base64 characters in groups of four, requiring canonical padding
at the end of the input and zero trailing bits, as the crate's STANDARD
engine does.  Returns the decoded bytes or an error description. -/
def decodeGroups : List Char → Except String (List Nat)
  | [] => Except.ok []
  | c0 :: c1 :: c2 :: c3 :: rest =>
    match b64Val c0, b64Val c1 with
    | some v0, some v1 =>
      if c2 = '=' then
        if c3 = '=' ∧ rest = [] then
          if v1 % 16 = 0 then Except.ok [v0 * 4 + v1 / 16]
          else Except.error "Invalid trailing bits"
        else Except.error "Invalid padding"
      else
        match b64Val c2 with
        | some v2 =>
          if c3 = '=' then
            if rest = [] then
              if v2 % 4 = 0 then
                Except.ok [v0 * 4 + v1 / 16, (v1 % 16) * 16 + v2 / 4]
              else Except.error "Invalid trailing bits"
            else Except.error "Invalid padding"
          else
            match b64Val c3 with
            | some v3 =>
              match decodeGroups rest with
              | Except.ok tail =>
                Except.ok ((v0 * 4 + v1 / 16) :: ((v1 % 16) * 16 + v2 / 4) ::
                  ((v2 % 4) * 64 + v3) :: tail)
              | Except.error e => Except.error e
            | none => Except.error "Invalid symbol"
        | none => Except.error "Invalid symbol"
    | _, _ => Except.error "Invalid symbol"
  | _ => Except.error "Invalid input length"

/-- Model of `base64::engine::general_purpose::STANDARD.decode` on a string. -/
def base64Decode (s : String) : Except String (List Nat) :=
  decodeGroups s.data

/-! ### Image model (model of the image crate's DynamicImage, post RGBA8 view) -/

/-- A decoded raster image: dimensions plus a pixel grid.  `pix x y i` is
byte `i` (of R,G,B,A) of the pixel at column `x`, row `y`.  This models the
image produced by `image::load_from_memory` through its RGBA8 view. -/
structure Img where
  width : Nat
  height : Nat
  pix : Nat → Nat → Fin 4 → Nat

/-- Model of `img.to_rgba8().into_raw()`: the row-major flattening of the
pixel grid, four bytes per pixel, no resizing and no alpha
premultiplication (pixel bytes are taken verbatim from the grid). -/
def toRgba8Raw (img : Img) : List Nat :=
  (List.range img.height).flatMap (fun y =>
    (List.range img.width).flatMap (fun x =>
      [img.pix x y 0, img.pix x y 1, img.pix x y 2, img.pix x y 3]))

/-- Model of `arboard::ImageData`: what the primary clipboard write receives. -/
structure ImgData where
  width : Nat
  height : Nat
  bytes : List Nat
deriving DecidableEq

/-- The `ImageData` value built in `copy_png_to_clipboard` from the decoded
image: its dimensions plus the raw RGBA buffer. -/
def materializedImgData (img : Img) : ImgData :=
  { width := img.width, height := img.height, bytes := toRgba8Raw img }

/-! ### Process and environment model -/

/-- Model of `std::process::Output` as used by the code: the exit code
(0 = success, mirroring `ExitStatus::success`) and the helper's standard
error already decoded to text (`String::from_utf8_lossy`). -/
structure ProcOutput where
  exitCode : Nat
  stderr : String
deriving DecidableEq

/-- Observable events of one run of `copy_png_to_clipboard`, in order:
the primary clipboard write attempt, the spawn of the wl-copy helper with
its command-line arguments, the bytes streamed to the helper's stdin, and
the closing of stdin followed by the wait for exit. -/
inductive Ev where
  | setImageAttempt (d : ImgData)
  | spawn (cmd : String) (args : List String)
  | writeStdin (bytes : List Nat)
  | closeStdinAndWait
deriving DecidableEq

/-- Oracles for the external effects of one copy request: the image crate's
decoder, arboard's `Clipboard::new` and `set_image`, and the spawn, stdin
write and wait of the wl-copy child process. -/
structure Env where
  loadFromMemory : List Nat → Except String Img
  clipboardNew : Except String Unit
  setImage : ImgData → Except String Unit
  spawnResult : Except String Unit
  writeResult : Except String Unit
  waitResult : Except String ProcOutput

/-! ### The copy routine (model of copy_png_to_clipboard) -/

/-- The fallback tail of `copy_png_to_clipboard`: spawn `wl-copy --type
image/png` with piped stdin, stream the undecoded PNG bytes to its stdin,
close stdin and wait, and fail on a non-zero exit status with the helper's
stderr text.  `tr` is the trace accumulated before the fallback starts. -/
def runFallback (env : Env) (png_data : List Nat) (tr : List Ev) :
    Except String Unit × List Ev :=
  match env.spawnResult with
  | Except.error e =>
    (Except.error ("Failed to spawn wl-copy: " ++ e),
     tr ++ [Ev.spawn "wl-copy" ["--type", "image/png"]])
  | Except.ok _ =>
    match env.writeResult with
    | Except.error e =>
      (Except.error ("Failed to write to wl-copy: " ++ e),
       tr ++ [Ev.spawn "wl-copy" ["--type", "image/png"], Ev.writeStdin png_data])
    | Except.ok _ =>
      match env.waitResult with
      | Except.error e =>
        (Except.error ("Failed to wait for wl-copy: " ++ e),
         tr ++ [Ev.spawn "wl-copy" ["--type", "image/png"], Ev.writeStdin png_data,
                Ev.closeStdinAndWait])
      | Except.ok out =>
        (if out.exitCode = 0 then Except.ok ()
         else Except.error ("wl-copy failed: " ++ out.stderr),
         tr ++ [Ev.spawn "wl-copy" ["--type", "image/png"], Ev.writeStdin png_data,
                Ev.closeStdinAndWait])

/-- Model of `copy_png_to_clipboard`: decode base64, decode the PNG,
attempt the primary arboard write, and on primary failure (handle
acquisition or image write) run the wl-copy fallback on the original
decoded bytes.  Returns the result together with the event trace.
The `eprintln!` diagnostics on the primary-failure paths are not part of
the observable trace. -/
def copy_png_to_clipboard (env : Env) (image_base64 : String) :
    Except String Unit × List Ev :=
  match base64Decode image_base64 with
  | Except.error e => (Except.error ("Failed to decode base64: " ++ e), [])
  | Except.ok png_data =>
    match env.loadFromMemory png_data with
    | Except.error e => (Except.error ("Failed to decode PNG: " ++ e), [])
    | Except.ok img =>
      match env.clipboardNew with
      | Except.ok _ =>
        match env.setImage (materializedImgData img) with
        | Except.ok _ =>
          (Except.ok (), [Ev.setImageAttempt (materializedImgData img)])
        | Except.error _ =>
          runFallback env png_data [Ev.setImageAttempt (materializedImgData img)]
      | Except.error _ => runFallback env png_data []

/-- The primary clipboard attempt fails: either `Clipboard::new` fails or
`set_image` on the materialized image data fails. -/
def primaryFails (env : Env) (d : ImgData) : Prop :=
  (∃ e, env.clipboardNew = Except.error e) ∨
  (env.clipboardNew = Except.ok () ∧ ∃ e, env.setImage d = Except.error e)

/-! ### The command surface (model of queue_clipboard_copy_base64 and friends) -/

/-- Model of `Result::is_ok`. -/
def exceptIsOk {ε α : Type} : Except ε α → Bool
  | Except.ok _ => true
  | Except.error _ => false

/-- Model of `Result::err`. -/
def exceptErr {ε α : Type} : Except ε α → Option ε
  | Except.ok _ => none
  | Except.error e => some e

/-- Payload of the `clipboard-copy-result` event. -/
structure ClipboardCopyResult where
  success : Bool
  error : Option String
  version : Nat
deriving DecidableEq

/-- Model of `queue_clipboard_copy_base64`: run the copy on a worker and
emit exactly one `clipboard-copy-result` event whose `success` is
`result.is_ok()`, whose `error` is `result.err()` and whose `version`
echoes the request's version.  The returned list is the sequence of
emitted event payloads.  (The `spawn_blocking` join is modelled as always
succeeding; joining and emission failures are outside the model.) -/
def queue_clipboard_copy_base64 (env : Env) (image_base64 : String)
    (version : Nat) : List ClipboardCopyResult :=
  [{ success := exceptIsOk (copy_png_to_clipboard env image_base64).1,
     error := exceptErr (copy_png_to_clipboard env image_base64).1,
     version := version }]

/-! ### Pending-file store (model of PendingFiles and get_pending_files) -/

/-- Model of the `PendingFiles` state: the list of stored paths.  The
mutex guarding it only serializes access and is not part of the
sequential model. -/
structure PendingFiles where
  paths : List String
deriving DecidableEq

/-- Model of `get_pending_files`: `drain(..).collect()` returns all stored
paths and leaves the store empty.  Returns the drained paths together with
the store's new state. -/
def get_pending_files (s : PendingFiles) : List String × PendingFiles :=
  (s.paths, { paths := [] })

/-! ### Path resolution (model of resolve_file_path and the relay in run) -/

/-- Filesystem oracles used by `resolve_file_path`: `canonicalize` models
`Path::canonicalize` composed with `to_str` (`none` when either fails) and
`currentDir` models `std::env::current_dir` (`none` on failure). -/
structure FsEnv where
  canonicalize : String → Option String
  currentDir : Option String

/-- The string starts with the character `c` (model of Rust's
`str::starts_with` on a single character). -/
def startsWithChar (p : String) (c : Char) : Bool :=
  match p.data with
  | [] => false
  | c0 :: _ => c0 = c

/-- Model of `Path::is_absolute` on Unix: the path starts with a slash. -/
def pathIsAbsolute (p : String) : Bool :=
  startsWithChar p '/'

/-- Model of `Path::join` for a relative right-hand side on Unix. -/
def pathJoin (base p : String) : String :=
  base ++ "/" ++ p

/-- Model of `resolve_file_path`: canonicalize an absolute path directly,
canonicalize `cwd.join(path)` for a relative one, and fall back to the
original string whenever any step fails. -/
def resolve_file_path (fs : FsEnv) (path : String) : String :=
  if pathIsAbsolute path then
    match fs.canonicalize path with
    | some s => s
    | none => path
  else
    match fs.currentDir with
    | some cwd =>
      match fs.canonicalize (pathJoin cwd path) with
      | some s => s
      | none => path
    | none => path

/-- Payload of the `open-files` event. -/
structure OpenFilesPayload where
  file_paths : List String
deriving DecidableEq

/-- The file paths the single-instance handler collects from a relayed
argument list: skip the first argument, drop arguments starting with a
dash, and resolve the rest. -/
def single_instance_file_paths (fs : FsEnv) (argv : List String) :
    List String :=
  ((argv.drop 1).filter (fun a => ! startsWithChar a '-')).map
    (resolve_file_path fs)

/-- The `open-files` event the single-instance handler emits: `some`
payload when at least one file path remains after filtering, `none`
otherwise. -/
def single_instance_event (fs : FsEnv) (argv : List String) :
    Option OpenFilesPayload :=
  if (single_instance_file_paths fs argv).isEmpty then none
  else some { file_paths := single_instance_file_paths fs argv }

/-! ### Concrete environments used to evaluate the theorems -/

/-- Equality of `Except` values is decidable when it is on both sides. -/
instance {ε α : Type} [DecidableEq ε] [DecidableEq α] : DecidableEq (Except ε α) :=
  fun a b =>
    match a, b with
    | Except.ok x, Except.ok y =>
      if h : x = y then Decidable.isTrue (by rw [h])
      else Decidable.isFalse (by simp [h])
    | Except.ok _, Except.error _ => Decidable.isFalse (by simp)
    | Except.error _, Except.ok _ => Decidable.isFalse (by simp)
    | Except.error x, Except.error y =>
      if h : x = y then Decidable.isTrue (by rw [h])
      else Decidable.isFalse (by simp [h])

/-- A one-by-one opaque-white test image. -/
def img1 : Img :=
  { width := 1, height := 1, pix := fun _ _ _ => 255 }

/-- Every external effect succeeds: the PNG decoder yields `img1`, the
primary clipboard write works, and the helper would also work. -/
def envAllOk : Env :=
  { loadFromMemory := fun _ => Except.ok img1
    clipboardNew := Except.ok ()
    setImage := fun _ => Except.ok ()
    spawnResult := Except.ok ()
    writeResult := Except.ok ()
    waitResult := Except.ok { exitCode := 0, stderr := "" } }

/-- The PNG container decoder rejects the bytes. -/
def envPngFail : Env :=
  { envAllOk with loadFromMemory := fun _ => Except.error "bad png" }

/-- The primary clipboard handle cannot be acquired; the helper runs but
exits with status 1 and diagnostic text on stderr. -/
def envHelperFails : Env :=
  { envAllOk with
    clipboardNew := Except.error "no clipboard manager"
    waitResult := Except.ok { exitCode := 1, stderr := "boom" } }

/-- The primary clipboard handle cannot be acquired and the helper
executable cannot be spawned. -/
def envSpawnFail : Env :=
  { envAllOk with
    clipboardNew := Except.error "clip gone"
    spawnResult := Except.error "No such file or directory" }

/-- The primary clipboard handle cannot be acquired; the helper succeeds. -/
def envNoClipboard : Env :=
  { envAllOk with clipboardNew := Except.error "no clipboard manager" }

/-- A filesystem in which only `/tmp/doc.md` canonicalizes (to itself). -/
def fsDoc : FsEnv :=
  { canonicalize := fun p => if p = "/tmp/doc.md" then some "/tmp/doc.md" else none
    currentDir := some "/home/user" }

/-- A filesystem in which nothing canonicalizes and the current directory
is unavailable. -/
def fsNone : FsEnv :=
  { canonicalize := fun _ => none, currentDir := none }

/-! ### Helper lemmas -/

/-- Flattening a list through a function whose values all have length `k`
multiplies the length by `k`. -/
theorem length_flatMap_const {α β : Type} (l : List α) (f : α → List β)
    (k : Nat) (h : ∀ a, (f a).length = k) :
    (l.flatMap f).length = l.length * k := by
  induction l with
  | nil => simp
  | cons a t ih =>
    simp only [List.flatMap_cons, List.length_append, h, ih, List.length_cons]
    ring

/-- The raw RGBA buffer of a decoded image has exactly
`width * height * 4` bytes. -/
theorem toRgba8Raw_length (img : Img) :
    (toRgba8Raw img).length = img.width * img.height * 4 := by
  unfold toRgba8Raw
  rw [length_flatMap_const _ _ (img.width * 4)]
  · simp [Nat.mul_comm, Nat.mul_assoc, Nat.mul_left_comm]
  · intro y
    rw [length_flatMap_const _ _ 4]
    · simp
    · intro x; rfl

/-- The fallback only appends to the trace it is given. -/
theorem runFallback_appends_trace (env : Env) (png : List Nat) (tr : List Ev) :
    ∃ post, (runFallback env png tr).2 = tr ++ post := by
  unfold runFallback
  cases env.spawnResult with
  | error e => exact ⟨_, rfl⟩
  | ok u =>
    cases env.writeResult with
    | error e => exact ⟨_, rfl⟩
    | ok u2 =>
      cases env.waitResult with
      | error e => exact ⟨_, rfl⟩
      | ok out => exact ⟨_, rfl⟩

/-- The events the fallback itself appends: always the spawn of
`wl-copy --type image/png`, then possibly the stdin write of the PNG
bytes, then possibly the close-and-wait. -/
theorem runFallback_trace_shape (env : Env) (png : List Nat) (tr : List Ev) :
    (runFallback env png tr).2 =
      tr ++ [Ev.spawn "wl-copy" ["--type", "image/png"]] ∨
    (runFallback env png tr).2 =
      tr ++ [Ev.spawn "wl-copy" ["--type", "image/png"], Ev.writeStdin png] ∨
    (runFallback env png tr).2 =
      tr ++ [Ev.spawn "wl-copy" ["--type", "image/png"], Ev.writeStdin png,
             Ev.closeStdinAndWait] := by
  unfold runFallback
  cases env.spawnResult with
  | error e => exact Or.inl rfl
  | ok u =>
    cases env.writeResult with
    | error e => exact Or.inr (Or.inl rfl)
    | ok u2 =>
      cases env.waitResult with
      | error e => exact Or.inr (Or.inr rfl)
      | ok out => exact Or.inr (Or.inr rfl)

/-- After a successful spawn, the fallback streams the PNG bytes to the
helper's stdin. -/
theorem runFallback_write_mem (env : Env) (png : List Nat) (tr : List Ev)
    (hs : env.spawnResult = Except.ok ()) :
    Ev.writeStdin png ∈ (runFallback env png tr).2 := by
  unfold runFallback
  rw [hs]
  cases env.writeResult with
  | error e => simp
  | ok u2 =>
    cases env.waitResult with
    | error e => simp
    | ok out => simp

/-- Any error produced by the fallback is a spawn, write, wait, or
helper-exit error built from the corresponding oracle outcome. -/
theorem runFallback_error_src (env : Env) (png : List Nat) (tr : List Ev)
    (e : String) (h : (runFallback env png tr).1 = Except.error e) :
    (∃ e0, env.spawnResult = Except.error e0 ∧
      e = "Failed to spawn wl-copy: " ++ e0) ∨
    (∃ e0, env.writeResult = Except.error e0 ∧
      e = "Failed to write to wl-copy: " ++ e0) ∨
    (∃ e0, env.waitResult = Except.error e0 ∧
      e = "Failed to wait for wl-copy: " ++ e0) ∨
    (∃ out, env.waitResult = Except.ok out ∧ out.exitCode ≠ 0 ∧
      e = "wl-copy failed: " ++ out.stderr) := by
  unfold runFallback at h
  cases hs : env.spawnResult with
  | error e0 =>
    rw [hs] at h
    exact Or.inl ⟨e0, rfl, by simpa using h.symm⟩
  | ok u =>
    rw [hs] at h
    cases hw : env.writeResult with
    | error e0 =>
      rw [hw] at h
      exact Or.inr (Or.inl ⟨e0, rfl, by simpa using h.symm⟩)
    | ok u2 =>
      rw [hw] at h
      cases ho : env.waitResult with
      | error e0 =>
        rw [ho] at h
        exact Or.inr (Or.inr (Or.inl ⟨e0, rfl, by simpa using h.symm⟩))
      | ok out =>
        rw [ho] at h
        by_cases hz : out.exitCode = 0
        · simp [hz] at h
        · simp [hz] at h
          exact Or.inr (Or.inr (Or.inr ⟨out, rfl, hz, h.symm⟩))

/-- With spawn, write and wait all succeeding, the fallback's outcome is
decided by the helper's exit code, and its trace records the spawn, the
full stdin write and the close-and-wait, in order. -/
theorem runFallback_wait_spec (env : Env) (png : List Nat) (tr : List Ev)
    (out : ProcOutput) (hs : env.spawnResult = Except.ok ())
    (hw : env.writeResult = Except.ok ())
    (ho : env.waitResult = Except.ok out) :
    runFallback env png tr =
      ((if out.exitCode = 0 then Except.ok ()
        else Except.error ("wl-copy failed: " ++ out.stderr)),
       tr ++ [Ev.spawn "wl-copy" ["--type", "image/png"], Ev.writeStdin png,
              Ev.closeStdinAndWait]) := by
  unfold runFallback
  rw [hs, hw, ho]

/-! ### Claim theorems -/

/-- C1 (counterexample): on the malformed base64 payload "!!!!", even with
an environment in which the wl-copy fallback would succeed, the request
fails with the base64 decode error and the trace is empty — in particular
the fallback helper is never spawned, contradicting the claim that the
orchestrator proceeds to the fallback with the raw bytes on decode
failure. -/
theorem decode_failure_no_fallback_cex :
    (copy_png_to_clipboard envAllOk "!!!!").1 =
      Except.error "Failed to decode base64: Invalid symbol" ∧
    (copy_png_to_clipboard envAllOk "!!!!").2 = [] ∧
    Ev.spawn "wl-copy" ["--type", "image/png"] ∉
      (copy_png_to_clipboard envAllOk "!!!!").2 := by
  refine ⟨rfl, rfl, ?_⟩
  intro h
  simp [copy_png_to_clipboard, base64Decode, decodeGroups, b64Val] at h

/-- C1 (amended): a decode failure — malformed base64 text or an
unparseable PNG container — terminates the whole request immediately with
the decode error; no fallback is attempted and no event is produced by the
copy routine. -/
theorem decode_failure_aborts_request (env : Env) (s : String) :
    (∀ e, base64Decode s = Except.error e →
      copy_png_to_clipboard env s =
        (Except.error ("Failed to decode base64: " ++ e), [])) ∧
    (∀ png e, base64Decode s = Except.ok png →
      env.loadFromMemory png = Except.error e →
      copy_png_to_clipboard env s =
        (Except.error ("Failed to decode PNG: " ++ e), [])) := by
  constructor
  · intro e h
    simp [copy_png_to_clipboard, h]
  · intro png e h1 h2
    simp [copy_png_to_clipboard, h1, h2]

/-- C1 (witness): the amended claim evaluated on the payload "AAAA" with a
PNG decoder that rejects the bytes. -/
theorem decode_failure_aborts_request_witness :
    copy_png_to_clipboard envPngFail "AAAA" =
      (Except.error ("Failed to decode PNG: " ++ "bad png"), []) :=
  (decode_failure_aborts_request envPngFail "AAAA").2 [0, 0, 0] "bad png" rfl rfl

/-- C2: when the primary clipboard write succeeds, the whole operation
returns success and no process is ever spawned. -/
theorem primary_success_no_fallback (env : Env) (s : String) (png : List Nat)
    (img : Img) (h1 : base64Decode s = Except.ok png)
    (h2 : env.loadFromMemory png = Except.ok img)
    (h3 : env.clipboardNew = Except.ok ())
    (h4 : env.setImage (materializedImgData img) = Except.ok ()) :
    (copy_png_to_clipboard env s).1 = Except.ok () ∧
    ∀ c a, Ev.spawn c a ∉ (copy_png_to_clipboard env s).2 := by
  simp [copy_png_to_clipboard, h1, h2, h3, h4]

/-- C2 (witness): evaluated on the payload "AA==" in the all-succeeding
environment. -/
theorem primary_success_no_fallback_witness :
    (copy_png_to_clipboard envAllOk "AA==").1 = Except.ok () ∧
    ∀ c a, Ev.spawn c a ∉ (copy_png_to_clipboard envAllOk "AA==").2 :=
  primary_success_no_fallback envAllOk "AA==" [0] img1 rfl rfl rfl rfl

/-- C3: on the fallback path, after a successful spawn, stdin write and
wait, the request succeeds exactly when the helper exits with status zero;
a non-zero status fails the request with the helper's stderr text, and the
trace records the full stdin write and the stdin close before the wait. -/
theorem fallback_exit_status_spec (env : Env) (s : String) (png : List Nat)
    (img : Img) (out : ProcOutput)
    (h1 : base64Decode s = Except.ok png)
    (h2 : env.loadFromMemory png = Except.ok img)
    (hp : primaryFails env (materializedImgData img))
    (hs : env.spawnResult = Except.ok ())
    (hw : env.writeResult = Except.ok ())
    (ho : env.waitResult = Except.ok out) :
    ((copy_png_to_clipboard env s).1 = Except.ok () ↔ out.exitCode = 0) ∧
    (out.exitCode ≠ 0 →
      (copy_png_to_clipboard env s).1 =
        Except.error ("wl-copy failed: " ++ out.stderr)) ∧
    Ev.writeStdin png ∈ (copy_png_to_clipboard env s).2 ∧
    Ev.closeStdinAndWait ∈ (copy_png_to_clipboard env s).2 := by
  have hrf : ∀ tr, runFallback env png tr =
      ((if out.exitCode = 0 then Except.ok ()
        else Except.error ("wl-copy failed: " ++ out.stderr)),
       tr ++ [Ev.spawn "wl-copy" ["--type", "image/png"], Ev.writeStdin png,
              Ev.closeStdinAndWait]) :=
    fun tr => runFallback_wait_spec env png tr out hs hw ho
  rcases hp with ⟨e, hc⟩ | ⟨hc, e, hsi⟩
  · simp only [copy_png_to_clipboard, h1, h2, hc, hrf]
    refine ⟨?_, ?_, by simp, by simp⟩
    · by_cases hz : out.exitCode = 0 <;> simp [hz]
    · intro hz; simp [hz]
  · simp only [copy_png_to_clipboard, h1, h2, hc, hsi, hrf]
    refine ⟨?_, ?_, by simp, by simp⟩
    · by_cases hz : out.exitCode = 0 <;> simp [hz]
    · intro hz; simp [hz]

/-- C3 (witness): evaluated on the payload "AA==" with the clipboard
unavailable and a helper exiting with status 1 and stderr "boom". -/
theorem fallback_exit_status_spec_witness :
    ((copy_png_to_clipboard envHelperFails "AA==").1 = Except.ok () ↔
      (ProcOutput.mk 1 "boom").exitCode = 0) ∧
    ((ProcOutput.mk 1 "boom").exitCode ≠ 0 →
      (copy_png_to_clipboard envHelperFails "AA==").1 =
        Except.error ("wl-copy failed: " ++ (ProcOutput.mk 1 "boom").stderr)) ∧
    Ev.writeStdin [0] ∈ (copy_png_to_clipboard envHelperFails "AA==").2 ∧
    Ev.closeStdinAndWait ∈ (copy_png_to_clipboard envHelperFails "AA==").2 :=
  fallback_exit_status_spec envHelperFails "AA==" [0] img1 (ProcOutput.mk 1 "boom")
    rfl rfl (Or.inl ⟨"no clipboard manager", rfl⟩) rfl rfl rfl

/-- C4: when the primary clipboard attempt fails, the fallback is invoked
as `wl-copy --type image/png`, the bytes streamed to its stdin (once the
spawn succeeds) are exactly the original base64-decoded buffer, and no
other byte sequence is ever streamed. -/
theorem fallback_uses_original_bytes (env : Env) (s : String) (png : List Nat)
    (img : Img)
    (h1 : base64Decode s = Except.ok png)
    (h2 : env.loadFromMemory png = Except.ok img)
    (hp : primaryFails env (materializedImgData img)) :
    Ev.spawn "wl-copy" ["--type", "image/png"] ∈
      (copy_png_to_clipboard env s).2 ∧
    (env.spawnResult = Except.ok () →
      Ev.writeStdin png ∈ (copy_png_to_clipboard env s).2) ∧
    (∀ bs, Ev.writeStdin bs ∈ (copy_png_to_clipboard env s).2 → bs = png) := by
  have hshape := runFallback_trace_shape env png
  rcases hp with ⟨e, hc⟩ | ⟨hc, e, hsi⟩
  · simp only [copy_png_to_clipboard, h1, h2, hc]
    refine ⟨?_, fun hs => runFallback_write_mem env png [] hs, ?_⟩
    · rcases hshape [] with h | h | h <;> simp [h]
    · intro bs hbs
      rcases hshape [] with h | h | h <;> rw [h] at hbs <;> simp at hbs <;>
        try exact hbs
  · simp only [copy_png_to_clipboard, h1, h2, hc, hsi]
    refine ⟨?_,
      fun hs => runFallback_write_mem env png
        [Ev.setImageAttempt (materializedImgData img)] hs, ?_⟩
    · rcases hshape [Ev.setImageAttempt (materializedImgData img)] with h | h | h <;>
        simp [h]
    · intro bs hbs
      rcases hshape [Ev.setImageAttempt (materializedImgData img)] with h | h | h <;>
        rw [h] at hbs <;> simp at hbs <;> try exact hbs

/-- C4 (witness): evaluated on the payload "AA==" with the clipboard
unavailable and a working helper. -/
theorem fallback_uses_original_bytes_witness :
    Ev.spawn "wl-copy" ["--type", "image/png"] ∈
      (copy_png_to_clipboard envNoClipboard "AA==").2 ∧
    (envNoClipboard.spawnResult = Except.ok () →
      Ev.writeStdin [0] ∈ (copy_png_to_clipboard envNoClipboard "AA==").2) ∧
    (∀ bs, Ev.writeStdin bs ∈ (copy_png_to_clipboard envNoClipboard "AA==").2 →
      bs = [0]) :=
  fallback_uses_original_bytes envNoClipboard "AA==" [0] img1 rfl rfl
    (Or.inl ⟨"no clipboard manager", rfl⟩)

/-- C5: whenever the copy routine fails, its error is the base64 error, the
PNG error, the spawn error, the stdin-write error, the wait error, or the
helper-exit error — each built from the corresponding non-primary stage's
outcome; the primary clipboard errors (handle acquisition, image write)
never appear in the surfaced failure. -/
theorem copy_error_from_later_stage (env : Env) (s : String) (e : String)
    (h : (copy_png_to_clipboard env s).1 = Except.error e) :
    (∃ e0, base64Decode s = Except.error e0 ∧
      e = "Failed to decode base64: " ++ e0) ∨
    (∃ png e0, base64Decode s = Except.ok png ∧
      env.loadFromMemory png = Except.error e0 ∧
      e = "Failed to decode PNG: " ++ e0) ∨
    (∃ e0, env.spawnResult = Except.error e0 ∧
      e = "Failed to spawn wl-copy: " ++ e0) ∨
    (∃ e0, env.writeResult = Except.error e0 ∧
      e = "Failed to write to wl-copy: " ++ e0) ∨
    (∃ e0, env.waitResult = Except.error e0 ∧
      e = "Failed to wait for wl-copy: " ++ e0) ∨
    (∃ out, env.waitResult = Except.ok out ∧ out.exitCode ≠ 0 ∧
      e = "wl-copy failed: " ++ out.stderr) := by
  unfold copy_png_to_clipboard at h
  cases hb : base64Decode s with
  | error e0 =>
    simp only [hb] at h
    exact Or.inl ⟨e0, rfl, by simpa using h.symm⟩
  | ok png =>
    simp only [hb] at h
    cases hl : env.loadFromMemory png with
    | error e0 =>
      simp only [hl] at h
      exact Or.inr (Or.inl ⟨png, e0, rfl, hl, by simpa using h.symm⟩)
    | ok img =>
      simp only [hl] at h
      cases hc : env.clipboardNew with
      | error e1 =>
        simp only [hc] at h
        exact Or.inr (Or.inr (runFallback_error_src env png [] e h))
      | ok u =>
        simp only [hc] at h
        cases hsi : env.setImage (materializedImgData img) with
        | error e1 =>
          simp only [hsi] at h
          exact Or.inr (Or.inr (runFallback_error_src env png
            [Ev.setImageAttempt (materializedImgData img)] e h))
        | ok u2 => simp [hsi] at h

/-- C5 (witness): evaluated on the payload "AA==" with the clipboard
unavailable and the helper executable missing: the surfaced error is the
spawn error, not the clipboard error. -/
theorem copy_error_from_later_stage_witness :
    (∃ e0, base64Decode "AA==" = Except.error e0 ∧
      "Failed to spawn wl-copy: No such file or directory" =
        "Failed to decode base64: " ++ e0) ∨
    (∃ png e0, base64Decode "AA==" = Except.ok png ∧
      envSpawnFail.loadFromMemory png = Except.error e0 ∧
      "Failed to spawn wl-copy: No such file or directory" =
        "Failed to decode PNG: " ++ e0) ∨
    (∃ e0, envSpawnFail.spawnResult = Except.error e0 ∧
      "Failed to spawn wl-copy: No such file or directory" =
        "Failed to spawn wl-copy: " ++ e0) ∨
    (∃ e0, envSpawnFail.writeResult = Except.error e0 ∧
      "Failed to spawn wl-copy: No such file or directory" =
        "Failed to write to wl-copy: " ++ e0) ∨
    (∃ e0, envSpawnFail.waitResult = Except.error e0 ∧
      "Failed to spawn wl-copy: No such file or directory" =
        "Failed to wait for wl-copy: " ++ e0) ∨
    (∃ out, envSpawnFail.waitResult = Except.ok out ∧ out.exitCode ≠ 0 ∧
      "Failed to spawn wl-copy: No such file or directory" =
        "wl-copy failed: " ++ out.stderr) :=
  copy_error_from_later_stage envSpawnFail "AA=="
    "Failed to spawn wl-copy: No such file or directory" rfl

/-- C6: each copy request produces exactly one `clipboard-copy-result`
event payload; its version echoes the request version unchanged, its
success flag holds exactly when the copy succeeded, and its error field is
absent exactly on success and otherwise carries the copy routine's failure
text. -/
theorem clipboard_result_event_spec (env : Env) (s : String) (version : Nat) :
    ∃ p, queue_clipboard_copy_base64 env s version = [p] ∧
      p.version = version ∧
      (p.success = true ↔ (copy_png_to_clipboard env s).1 = Except.ok ()) ∧
      (p.error = none ↔ p.success = true) ∧
      (∀ e, p.error = some e ↔
        (copy_png_to_clipboard env s).1 = Except.error e) := by
  refine ⟨_, rfl, rfl, ?_, ?_, ?_⟩
  all_goals
    cases hr : (copy_png_to_clipboard env s).1 with
    | error e0 => simp [exceptIsOk, exceptErr, hr]
    | ok u => cases u; simp [exceptIsOk, exceptErr, hr]

/-- C6 (witness): evaluated on the payload "AA==" in the all-succeeding
environment with request version 7. -/
theorem clipboard_result_event_spec_witness :
    ∃ p, queue_clipboard_copy_base64 envAllOk "AA==" 7 = [p] ∧
      p.version = 7 ∧
      (p.success = true ↔ (copy_png_to_clipboard envAllOk "AA==").1 = Except.ok ()) ∧
      (p.error = none ↔ p.success = true) ∧
      (∀ e, p.error = some e ↔
        (copy_png_to_clipboard envAllOk "AA==").1 = Except.error e) :=
  clipboard_result_event_spec envAllOk "AA==" 7

/-- C7: on a successful decode, the image data handed to the primary
clipboard write carries the decoded image's dimensions and its verbatim
row-major RGBA flattening, whose length is width * height * 4. -/
theorem decoded_image_buffer_spec (env : Env) (s : String) (png : List Nat)
    (img : Img)
    (h1 : base64Decode s = Except.ok png)
    (h2 : env.loadFromMemory png = Except.ok img)
    (h3 : env.clipboardNew = Except.ok ()) :
    Ev.setImageAttempt (materializedImgData img) ∈
      (copy_png_to_clipboard env s).2 ∧
    (materializedImgData img).width = img.width ∧
    (materializedImgData img).height = img.height ∧
    (materializedImgData img).bytes = toRgba8Raw img ∧
    (materializedImgData img).bytes.length = img.width * img.height * 4 := by
  refine ⟨?_, rfl, rfl, rfl, toRgba8Raw_length img⟩
  simp only [copy_png_to_clipboard, h1, h2, h3]
  cases hsi : env.setImage (materializedImgData img) with
  | error e =>
    rcases runFallback_appends_trace env png
      [Ev.setImageAttempt (materializedImgData img)] with ⟨post, hpost⟩
    rw [hpost]
    simp
  | ok u => simp

/-- C7 (witness): evaluated on the payload "AA==" in the all-succeeding
environment, on the one-by-one test image. -/
theorem decoded_image_buffer_spec_witness :
    Ev.setImageAttempt (materializedImgData img1) ∈
      (copy_png_to_clipboard envAllOk "AA==").2 ∧
    (materializedImgData img1).width = img1.width ∧
    (materializedImgData img1).height = img1.height ∧
    (materializedImgData img1).bytes = toRgba8Raw img1 ∧
    (materializedImgData img1).bytes.length = img1.width * img1.height * 4 :=
  decoded_image_buffer_spec envAllOk "AA==" [0] img1 rfl rfl rfl

/-- C8: draining the pending-file store returns exactly the stored paths
and leaves the store empty, so an immediately following drain returns the
empty sequence; draining an empty store returns the empty sequence. -/
theorem get_pending_files_drain_spec (s : PendingFiles) :
    (get_pending_files s).1 = s.paths ∧
    ((get_pending_files s).2).paths = [] ∧
    (get_pending_files (get_pending_files s).2).1 = [] ∧
    (get_pending_files { paths := [] }).1 = [] :=
  ⟨rfl, rfl, rfl, rfl⟩

/-- C8 (witness): evaluated on a store holding two paths. -/
theorem get_pending_files_drain_spec_witness :
    (get_pending_files { paths := ["/tmp/a.md", "/tmp/b.md"] }).1 =
      ["/tmp/a.md", "/tmp/b.md"] ∧
    ((get_pending_files { paths := ["/tmp/a.md", "/tmp/b.md"] }).2).paths = [] ∧
    (get_pending_files
      (get_pending_files { paths := ["/tmp/a.md", "/tmp/b.md"] }).2).1 = [] ∧
    (get_pending_files { paths := [] }).1 = [] :=
  get_pending_files_drain_spec { paths := ["/tmp/a.md", "/tmp/b.md"] }

/-- C9: an absolute path is exposed as its canonical form when
canonicalization succeeds and as the original string when it fails; a
relative path is canonicalized after joining onto the current directory,
again falling back to the original string when the current directory or
the canonicalization is unavailable.  Resolution always returns a string
and never fails the surrounding operation. -/
theorem resolve_file_path_spec (fs : FsEnv) (path : String) :
    (pathIsAbsolute path = true →
      (∀ s, fs.canonicalize path = some s →
        resolve_file_path fs path = s) ∧
      (fs.canonicalize path = none → resolve_file_path fs path = path)) ∧
    (pathIsAbsolute path = false →
      (∀ cwd s, fs.currentDir = some cwd →
        fs.canonicalize (pathJoin cwd path) = some s →
        resolve_file_path fs path = s) ∧
      (∀ cwd, fs.currentDir = some cwd →
        fs.canonicalize (pathJoin cwd path) = none →
        resolve_file_path fs path = path) ∧
      (fs.currentDir = none → resolve_file_path fs path = path)) := by
  constructor
  · intro habs
    constructor
    · intro s hs
      simp [resolve_file_path, habs, hs]
    · intro hn
      simp [resolve_file_path, habs, hn]
  · intro habs
    refine ⟨?_, ?_, ?_⟩
    · intro cwd s hc hs
      simp [resolve_file_path, habs, hc, hs]
    · intro cwd hc hn
      simp [resolve_file_path, habs, hc, hn]
    · intro hn
      simp [resolve_file_path, habs, hn]

/-- C9 (witness): the absolute path "/tmp/doc.md" resolves to its
canonical form in a filesystem in which it canonicalizes to itself. -/
theorem resolve_file_path_spec_witness :
    resolve_file_path fsDoc "/tmp/doc.md" = "/tmp/doc.md" :=
  ((resolve_file_path_spec fsDoc "/tmp/doc.md").1 (by decide)).1 "/tmp/doc.md" rfl

/-- C10: the single-instance relay emits no `open-files` event exactly
when every argument after the first starts with a dash; an emitted payload
carries precisely the resolved non-dash arguments after the first, and is
never empty. -/
theorem single_instance_relay_spec (fs : FsEnv) (argv : List String) :
    (single_instance_event fs argv = none ↔
      ∀ a ∈ argv.drop 1, startsWithChar a '-' = true) ∧
    (∀ p, single_instance_event fs argv = some p →
      p.file_paths = single_instance_file_paths fs argv ∧
      p.file_paths ≠ []) ∧
    (∀ q, q ∈ single_instance_file_paths fs argv →
      ∃ a, a ∈ argv.drop 1 ∧ startsWithChar a '-' = false ∧
        q = resolve_file_path fs a) ∧
    (∀ a, a ∈ argv.drop 1 → startsWithChar a '-' = false →
      resolve_file_path fs a ∈ single_instance_file_paths fs argv) := by
  refine ⟨?_, ?_, ?_, ?_⟩
  · constructor
    · intro h a ha
      by_contra hne
      have hmem : a ∈ (argv.drop 1).filter (fun a => ! startsWithChar a '-') :=
        List.mem_filter.mpr ⟨ha, by
          simp only [Bool.not_eq_true] at hne
          simp [hne]⟩
      have hres : resolve_file_path fs a ∈ single_instance_file_paths fs argv :=
        List.mem_map_of_mem _ hmem
      rcases hful : single_instance_file_paths fs argv with _ | ⟨x, xs⟩
      · rw [hful] at hres; simp at hres
      · simp [single_instance_event, hful] at h
    · intro h
      have hnil : (argv.drop 1).filter (fun a => ! startsWithChar a '-') = [] := by
        rw [List.filter_eq_nil_iff]
        intro a ha
        simp [h a ha]
      have hpaths : single_instance_file_paths fs argv = [] := by
        unfold single_instance_file_paths
        rw [hnil]
        rfl
      simp [single_instance_event, hpaths]
  · intro p hp
    unfold single_instance_event at hp
    by_cases hemp : (single_instance_file_paths fs argv).isEmpty
    · simp [hemp] at hp
    · have hne : single_instance_file_paths fs argv ≠ [] := by
        simpa [List.isEmpty_iff] using hemp
      simp [hemp] at hp
      subst hp
      exact ⟨rfl, by simpa using hne⟩
  · intro q hq
    unfold single_instance_file_paths at hq
    rcases List.mem_map.mp hq with ⟨a, ha, hres⟩
    rcases List.mem_filter.mp ha with ⟨ha1, ha2⟩
    refine ⟨a, ha1, ?_, hres.symm⟩
    simpa using ha2
  · intro a ha hd
    unfold single_instance_file_paths
    exact List.mem_map_of_mem _ (List.mem_filter.mpr ⟨ha, by simp [hd]⟩)

/-- C10 (witness): the relayed argument list ["app", "-q"] leaves no file
path after filtering, so no `open-files` event is emitted. -/
theorem single_instance_relay_spec_witness :
    single_instance_event fsNone ["app", "-q"] = none :=
  (single_instance_relay_spec fsNone ["app", "-q"]).1.mpr (by decide)
